import Mathlib

/-!
Verification of the PaperMemory popup search/filter/sort/pagination engine
(`src/popup/js/memory.js`) and of the AnkiConnect note construction
(`addAnkiCard` in the two AnkiConnect integration files).

JavaScript strings are modelled as Lean `String`s, with the JS string
operations (`toLowerCase`, `split(" ")`, `includes`, one-shot `replace`,
`parseInt(·, 10)`, …) re-implemented over `String.data` lists of characters
so that every definition is executable and kernel-reducible.

Dynamically-typed paper fields that the search code inspects with
`Array.isArray` / `typeof === "string"` are modelled by the sum type
`JSValue`; a JS exception (e.g. calling `.map` on a non-array) is modelled
by an `Option` result, `none` meaning the filter pass threw and produced
no result.
-/

/-- JS character predicate used by `trim` and `parseInt`: ASCII whitespace. -/
def isJsSpace (c : Char) : Bool :=
  c = ' ' || c = '\t' || c = '\n' || c = '\r'

/-- Check whether the first list of characters occurs at the head of the second
(the JS `startsWith` on the char level). -/
def startsWithChars : List Char → List Char → Bool
  | [], _ => true
  | _ :: _, [] => false
  | p :: ps, c :: cs => p = c && startsWithChars ps cs

/-- Does `needle` occur as a contiguous run inside `hay`? (JS `String.includes`.) -/
def includesChars (needle : List Char) : List Char → Bool
  | [] => needle.isEmpty
  | c :: cs => startsWithChars needle (c :: cs) || includesChars needle cs

/-- JS `hay.includes(needle)` — substring test, empty needle always matches. -/
def strIncludes (hay needle : String) : Bool :=
  includesChars needle.data hay.data

/-- Replace the first occurrence of `pat` by `repl` (JS `String.replace` with a
string pattern replaces only the first occurrence). -/
def replaceFirstChars (pat repl : List Char) : List Char → List Char
  | [] => if pat.isEmpty then repl else []
  | c :: cs =>
    if startsWithChars pat (c :: cs) then repl ++ (c :: cs).drop pat.length
    else c :: replaceFirstChars pat repl cs

/-- JS `s.replace(pat, repl)` for a string `pat` — first occurrence only. -/
def replaceFirst (s pat repl : String) : String :=
  ⟨replaceFirstChars pat.data repl.data s.data⟩

/-- JS `s.replace(/(<|>)/g, "")`: delete every angle-bracket character. -/
def stripAngles (s : String) : String :=
  ⟨s.data.filter (fun c => !(c = '<' || c = '>'))⟩

/-- JS `s.replaceAll(",", " ")`. -/
def commasToSpaces (s : String) : String :=
  ⟨s.data.map (fun c => if c = ',' then ' ' else c)⟩

/-- JS `s.toLowerCase()` restricted to ASCII (which is also what
`Char.toLower` implements). -/
def jsToLower (s : String) : String :=
  ⟨s.data.map Char.toLower⟩

/-- Split a character list on a separator character; like JS `split`, the
result always has one (possibly empty) group more than the number of
separator occurrences: `"".split(" ") = [""]`, `"a ".split(" ") = ["a",""]`. -/
def splitChars (sep : Char) : List Char → List (List Char)
  | [] => [[]]
  | c :: cs =>
    let r := splitChars sep cs
    if c = sep then [] :: r
    else
      match r with
      | [] => [[c]]
      | g :: gs => (c :: g) :: gs

/-- JS `s.split(" ")` (the memory search code always splits on a single
space character). -/
def jsSplit (s : String) (sep : Char) : List String :=
  (splitChars sep s.data).map (fun g => ⟨g⟩)

/-- JS `s.trim()`. -/
def jsTrim (s : String) : String :=
  ⟨((s.data.dropWhile isJsSpace).reverse.dropWhile isJsSpace).reverse⟩

/-- JS `s.startsWith(p)`. -/
def jsStartsWith (s p : String) : Bool :=
  startsWithChars p.data s.data

/-- JS `s.includes(c)` for a single character. -/
def containsChar (s : String) (c : Char) : Bool :=
  s.data.any (fun x => x = c)

/-- JS `array.join(" ")`. -/
def joinChars (sep : List Char) : List (List Char) → List Char
  | [] => []
  | [x] => x
  | x :: xs => x ++ sep ++ joinChars sep xs

/-- JS `array.join(sep)` on string arrays. -/
def jsJoin (l : List String) (sep : String) : String :=
  ⟨joinChars sep.data (l.map String.data)⟩

/-- Parse a run of decimal digits; `none` when the run is empty
(the NaN case of `parseInt`). -/
def parseDigitsJS (cs : List Char) : Option Nat :=
  let ds := cs.takeWhile Char.isDigit
  if ds.isEmpty then none
  else some (ds.foldl (fun acc c => acc * 10 + (c.toNat - '0'.toNat)) 0)

/-- JS `parseInt(s, 10)`: skip leading whitespace, optional sign, then the
longest leading digit run; `none` models `NaN`. -/
def parseIntJS (s : String) : Option Int :=
  match s.data.dropWhile isJsSpace with
  | '-' :: rest => (parseDigitsJS rest).map (fun n => -(n : Int))
  | '+' :: rest => (parseDigitsJS rest).map (fun n => (n : Int))
  | cs => (parseDigitsJS cs).map (fun n => (n : Int))

/-- A dynamically-typed JS field value as the search code distinguishes them:
an array of strings, a string, or anything else (`undefined`, a number, …). -/
inductive JSValue where
  | varr : List String → JSValue
  | vstr : String → JSValue
  | vother : JSValue
deriving DecidableEq, Repr

/-- A paper record (`global.state.papers[id]`), with the fields the
filter/sort/pagination engine reads.  The six content fields inspected by
`searchMemory` keep their dynamic JS type. -/
structure Paper where
  id : JSValue
  title : JSValue
  author : JSValue
  note : JSValue
  tags : JSValue
  venue : JSValue
  year : String
  codeLink : Option String
  favorite : Bool
  favoriteDate : Option String
  addDate : String
  lastOpenDate : String
  count : Int
deriving DecidableEq, Repr

/-- The `contentKeys` array of `searchMemory`. -/
def contentKeys : List String := ["title", "author", "note", "tags", "id", "venue"]

/-- `paper[key]` for the keys in `contentKeys`. -/
def getField (p : Paper) (key : String) : JSValue :=
  if key = "title" then p.title
  else if key = "author" then p.author
  else if key = "note" then p.note
  else if key = "tags" then p.tags
  else if key = "id" then p.id
  else if key = "venue" then p.venue
  else JSValue.vother

/-- The body of the `contentKeys.map` in `searchMemory`: an array joins with
`" "` and lowercases, a string lowercases, anything else is logged and
becomes the empty string.  The boolean records whether the error branch was
taken (i.e. whether `logError` fired). -/
def jsContent (v : JSValue) : String × Bool :=
  match v with
  | .varr l => (jsToLower (jsJoin l " "), false)
  | .vstr s => (jsToLower s, false)
  | .vother => ("", true)

/-- The match predicate of `searchMemory`:
`words.every((w) => contents.some((c) => c.includes(w)))`. -/
def textMatch (words : List String) (p : Paper) : Bool :=
  words.all (fun w =>
    (contentKeys.map (fun k => (jsContent (getField p k)).1)).any
      (fun c => strIncludes c w))

/-- The log line `searchMemory` emits for a malformed field. -/
def searchMemoryErrMsg (key : String) : String :=
  "searchMemory: non-string & non-array content for key " ++ key

/-- The `for (const paper of sortedPapers)` loop of `searchMemory`:
returns the pushed `papersList` together with the emitted error log. -/
def searchMemoryGo (words : List String) (showFavorites : Bool) :
    List Paper → List Paper × List String
  | [] => ([], [])
  | p :: rest =>
    let prev := searchMemoryGo words showFavorites rest
    let plog := (contentKeys.filter (fun k => (jsContent (getField p k)).2)).map
      searchMemoryErrMsg
    (if textMatch words p && (!showFavorites || p.favorite)
      then p :: prev.1 else prev.1,
     plog ++ prev.2)

/-- `searchMemory(letters)` from `memory.js`: filter `sortedPapers` by the
lowercased space-split words of the query, each of which must occur in one of
the six content fields; a favorite check is applied when the favorites
toggle is on.  The second component is the error log. -/
def searchMemory (letters : String) (sortedPapers : List Paper)
    (showFavorites : Bool) : List Paper × List String :=
  searchMemoryGo (jsSplit (jsToLower letters) ' ') showFavorites sortedPapers

/-- The year-query comparison mode: `"smaller"` when the query contains `<`,
`"greater"` when it contains `>`, else the empty-string/equality default. -/
inductive YearCond where
  | smaller
  | greater
  | equal
deriving DecidableEq, Repr

/-- The `condition` computed at the top of `searchMemoryByYear`. -/
def yearCondition (letters : String) : YearCond :=
  if containsChar letters '<' then .smaller
  else if containsChar letters '>' then .greater
  else .equal

/-- The `searchYears` pipeline of `searchMemoryByYear`: strip the first
`"y:"`, delete angle brackets, lowercase, commas to spaces, split on a
space, drop empty tokens, left-pad non-4-character tokens with `"20"`,
`parseInt` each (NaN kept as `none`). -/
def searchYears (letters : String) : List (Option Int) :=
  ((jsSplit (commasToSpaces (jsToLower (stripAngles (replaceFirst letters "y:" "")))) ' ')
    |>.filter (fun y => y.length > 0)
    |>.map (fun y => if y.length = 4 then y else "20" ++ y)
    |>.map parseIntJS)

/-- The `compare(y, py)` closure of `searchMemoryByYear`; any comparison with
NaN (`none`) is false, matching JS `===`/`<`/`>` on NaN. -/
def yearCompare : YearCond → Option Int → Option Int → Bool
  | _, none, _ => false
  | _, _, none => false
  | .equal, some y, some py => y == py
  | .smaller, some y, some py => decide (y > py)
  | .greater, some y, some py => decide (y < py)

/-- `searchMemoryByYear(letters)` from `memory.js`.  Note: unlike the other
three search functions it contains no `showFavorites` check at all. -/
def searchMemoryByYear (letters : String) (sortedPapers : List Paper) :
    List Paper :=
  let cond := yearCondition letters
  let years := searchYears letters
  sortedPapers.filter (fun p =>
    years.any (fun y => yearCompare cond y (parseIntJS p.year)))

/-- The lowercased space-split token list of a tag query
(`letters.replace("t:", "").toLowerCase().split(" ")`). -/
def tagTokens (letters : String) : List String :=
  jsSplit (jsToLower (replaceFirst letters "t:" "")) ' '

/-- The match predicate of `searchMemoryByTags` on a well-typed tag array:
`tags.every((t) => paperTags.some((pt) => pt.indexOf(t) >= 0))`. -/
def tagsMatch (tokens : List String) (paperTagsRaw : List String) : Bool :=
  tokens.all (fun t =>
    (paperTagsRaw.map jsToLower).any (fun pt => strIncludes pt t))

/-- The `for` loop of `searchMemoryByTags`.  `paper.tags.map` throws a
`TypeError` when `tags` is not an array; the exception propagates out of the
function, so the assignment to `global.state.papersList` never happens —
modelled by a `none` result for the whole pass. -/
def searchMemoryByTagsGo (tokens : List String) (showFavorites : Bool) :
    List Paper → Option (List Paper)
  | [] => some []
  | p :: rest =>
    match p.tags with
    | .varr l =>
      (searchMemoryByTagsGo tokens showFavorites rest).map (fun tl =>
        if tagsMatch tokens l && (!showFavorites || p.favorite)
          then p :: tl else tl)
    | _ => none

/-- `searchMemoryByTags(letters)` from `memory.js`. -/
def searchMemoryByTags (letters : String) (sortedPapers : List Paper)
    (showFavorites : Bool) : Option (List Paper) :=
  searchMemoryByTagsGo (tagTokens letters) showFavorites sortedPapers

/-- `searchMemoryByCode(letters)` from `memory.js`: every word of the
lowercased `"c:"`-stripped query must occur in `paper.codeLink || ""`. -/
def searchMemoryByCode (letters : String) (sortedPapers : List Paper)
    (showFavorites : Bool) : List Paper :=
  let words := jsSplit (jsToLower (replaceFirst letters "c:" "")) ' '
  sortedPapers.filter (fun p =>
    let paperCode := jsToLower (p.codeLink.getD "")
    words.all (fun w => strIncludes paperCode w) &&
      (!showFavorites || p.favorite))

/-- Modelled from the spec: the query dispatcher of §4.1 is not among the
provided source files (only the four search functions it calls are).  The
spec: the raw string, lowercased and trimmed, is classified by its prefix —
`"t:"` → tag query, `"y:"` → year query, `"c:"` → code query, anything else
→ plain text query — and the matching search function is invoked on the raw
query.  A `none` result models a thrown exception in the selected pass. -/
def filterMemory (query : String) (sortedPapers : List Paper)
    (showFavorites : Bool) : Option (List Paper) :=
  let q := jsToLower (jsTrim query)
  if jsStartsWith q "t:" then
    searchMemoryByTags query sortedPapers showFavorites
  else if jsStartsWith q "y:" then
    some (searchMemoryByYear query sortedPapers)
  else if jsStartsWith q "c:" then
    some (searchMemoryByCode query sortedPapers showFavorites)
  else
    some (searchMemory query sortedPapers showFavorites).1

/-- `saveFavoriteItem(id, favorite)` from `memory.js`, restricted to its
effect on the paper record: it sets `favorite` to the given flag and
*unconditionally* sets `favoriteDate` to the current time
(`new Date().toJSON()`), in both the favoriting and the un-favoriting
direction. -/
def saveFavoriteItem (p : Paper) (favorite : Bool) (now : String) : Paper :=
  { p with favorite := favorite, favoriteDate := some now }

/-- The pagination state of the memory view: `currentMemoryPagination` and
the rows currently in `#memory-table` (modelled as the list of rendered
paper records). -/
structure MemoryView where
  currentMemoryPagination : Nat
  renderedRows : List Paper
deriving DecidableEq, Repr

/-- `papersList.slice(pagination * perPage, (pagination + 1) * perPage)`. -/
def pageSlice (l : List Paper) (perPage pagination : Nat) : List Paper :=
  (l.take ((pagination + 1) * perPage)).drop (pagination * perPage)

/-- `displayMemoryTable(pagination)` from `memory.js`: at `pagination = 0` it
clears the table and resets the cursor, then renders the first slice; at
`pagination > 0` it appends the slice `[pagination*perPage,
(pagination+1)*perPage)` after the already-rendered rows. -/
def displayMemoryTable (papersList : List Paper) (perPage : Nat)
    (pagination : Nat) (view : MemoryView) : MemoryView :=
  if pagination = 0 then
    { currentMemoryPagination := 0,
      renderedRows := pageSlice papersList perPage 0 }
  else
    { view with
      renderedRows := view.renderedRows ++ pageSlice papersList perPage pagination }

/-- The guarded body of `displayOnScroll` from `memory.js`, given that the
scroll-proximity geometry test (`Math.abs(bottom - height) < height`, a DOM
measurement outside the embedding) fired: if
`currentMemoryPagination * memoryItemsPerPage < papersList.length`, the
cursor is incremented and `displayMemoryTable` is called with the new
cursor; otherwise nothing happens. -/
def displayOnScrollTrigger (papersList : List Paper) (perPage : Nat)
    (view : MemoryView) : MemoryView :=
  let currentPapers := view.currentMemoryPagination * perPage
  if currentPapers < papersList.length then
    let c := view.currentMemoryPagination + 1
    displayMemoryTable papersList perPage c
      { view with currentMemoryPagination := c }
  else view

/-- `reverseMemory()` from `memory.js`: reverse the two ordered lists
`sortedPapers` and `papersList`. -/
def reverseMemory (sortedPapers papersList : List Paper) :
    List Paper × List Paper :=
  (sortedPapers.reverse, papersList.reverse)

/-- The sort keys named by the spec (§4.3). -/
inductive SortKey where
  | lastOpenDate
  | addDate
  | favoriteDate
  | title
  | year
  | count
deriving DecidableEq, Repr

/-- Sort direction. -/
inductive SortDirection where
  | asc
  | desc
deriving DecidableEq, Repr

/-- String view of a dynamic field, for sorting by title. -/
def jsStrOf : JSValue → String
  | .vstr s => s
  | .varr l => jsJoin l ","
  | .vother => ""

/-- Modelled from the spec: the per-key comparator of the Sort Engine
(§4.3); `sortMemory` itself is not among the provided source files.
Date-like keys compare chronologically (ISO-8601 `toJSON` strings compare
chronologically as strings), string keys lexicographically, numeric keys
numerically; an absent `favoriteDate` compares as the empty string and an
unparsable year as 0. -/
def keyLE (k : SortKey) (a b : Paper) : Bool :=
  match k with
  | .lastOpenDate => decide (a.lastOpenDate ≤ b.lastOpenDate)
  | .addDate => decide (a.addDate ≤ b.addDate)
  | .favoriteDate => decide (a.favoriteDate.getD "" ≤ b.favoriteDate.getD "")
  | .title => decide (jsStrOf a.title ≤ jsStrOf b.title)
  | .year => decide ((parseIntJS a.year).getD 0 ≤ (parseIntJS b.year).getD 0)
  | .count => decide (a.count ≤ b.count)

/-- Modelled from the spec: `sortMemory` (Sort Engine, §4.3) is not among
the provided source files.  Ascending order is a stable sort by the key's
comparator; per §4.3/§8 the descending direction is realized as the O(n)
reversal of the ascending order (`reverseMemory`), not as a re-sort. -/
def sortMemory (c : List Paper) (k : SortKey) : SortDirection → List Paper
  | .asc => c.mergeSort (keyLE k)
  | .desc => (c.mergeSort (keyLE k)).reverse

/-- A note as handed to the AnkiConnect `addNote` action by `addAnkiCard`. -/
structure AnkiNote where
  deckName : String
  modelName : String
  front : String
  back : String
  tags : List String
  allowDuplicate : Bool
  duplicateScope : String
deriving DecidableEq, Repr

/-- The paper metadata object the richer `addAnkiCard` variant reads
(optional fields; `none` models an absent/undefined property). -/
structure AnkiPaperMeta where
  source : Option String
  id : Option String
  title : Option String
  authors : Option String
  author : Option String
  year : Option String
deriving DecidableEq, Repr

/-- JS truthiness of an optional string property: absent and `""` are falsy. -/
def truthyStr : Option String → Bool
  | none => false
  | some s => !s.isEmpty

/-- The metadata block the richer `addAnkiCard` appends to the back field
when a paper object is supplied. -/
def ankiMetadataBlock (paper : AnkiPaperMeta) : String :=
  let m := "<hr><small>"
  let m := if paper.source = some "arxiv" && truthyStr paper.id then
      m ++ "<strong>arXiv:</strong> " ++ paper.id.getD "" ++ "<br>"
    else m
  let m := if truthyStr paper.title then
      m ++ "<strong>Title:</strong> " ++ paper.title.getD "" ++ "<br>"
    else m
  let m := if truthyStr paper.authors || truthyStr paper.author then
      m ++ "<strong>Authors:</strong> "
        ++ (if truthyStr paper.authors then paper.authors.getD ""
            else paper.author.getD "") ++ "<br>"
    else m
  let m := if truthyStr paper.year then
      m ++ "<strong>Year:</strong> " ++ paper.year.getD "" ++ "<br>"
    else m
  m ++ "</small>"

/-- `addAnkiCard(deckName, front, back, tags, paper)` from the first
AnkiConnect integration file, restricted to the note object it submits to
the `addNote` action: model `"Basic"`, options `allowDuplicate: true` with
`duplicateScope: "deck"`, and the paper metadata appended to the back field
when a paper object is given. -/
def addAnkiCard (deckName front back : String) (tags : List String)
    (paper : Option AnkiPaperMeta) : AnkiNote :=
  let fieldsBack :=
    match paper with
    | some pm => back ++ ankiMetadataBlock pm
    | none => back
  { deckName := deckName
    modelName := "Basic"
    front := front
    back := fieldsBack
    tags := tags
    allowDuplicate := true
    duplicateScope := "deck" }

/-- `addAnkiCard(deckName, front, back, tags)` from the second AnkiConnect
integration file (the variant without a paper-metadata parameter),
restricted to the note object it submits. -/
def addAnkiCardBasic (deckName front back : String) (tags : List String) :
    AnkiNote :=
  { deckName := deckName
    modelName := "Basic"
    front := front
    back := back
    tags := tags
    allowDuplicate := true
    duplicateScope := "deck" }

/-- A baseline well-typed paper record used for concrete instances. -/
def basePaper : Paper where
  id := .vstr "2101.00001"
  title := .vstr "Base Title"
  author := .vstr "Ada Author"
  note := .vstr ""
  tags := .varr []
  venue := .vstr ""
  year := "2020"
  codeLink := none
  favorite := false
  favoriteDate := none
  addDate := "2021-01-01T00:00:00.000Z"
  lastOpenDate := "2021-01-02T00:00:00.000Z"
  count := 1

/-- A paper from the year 2023. -/
def p2023 : Paper := { basePaper with id := .vstr "p2023", year := "2023" }

/-- A paper from the year 2021. -/
def p2021 : Paper := { basePaper with id := .vstr "p2021", year := "2021" }

/-- A paper tagged `"gan"`. -/
def pGan : Paper := { basePaper with id := .vstr "pGan", tags := .varr ["gan"] }

/-- A paper whose `tags` field is malformed (a string instead of an array). -/
def pBadTags : Paper :=
  { basePaper with id := .vstr "pBadTags", tags := .vstr "oops" }

/-- The paper's `tags` field viewed as an array, `none` when it is not one. -/
def jsTagsArr (p : Paper) : Option (List String) :=
  match p.tags with
  | .varr l => some l
  | _ => none

/-- The total keep-predicate realized by the `searchMemoryByTags` loop on
papers whose pass did not throw (a non-array `tags` never reaches the push,
so it maps to `false`). -/
def tagsKeep (tokens : List String) (showFavorites : Bool) (p : Paper) : Bool :=
  match p.tags with
  | .varr l => tagsMatch tokens l && (!showFavorites || p.favorite)
  | _ => false

/-- A favorite paper. -/
def pFav : Paper := { basePaper with id := .vstr "pFav", favorite := true }

/-- A paper whose `venue` field is malformed (neither string nor array). -/
def pBadVenue : Paper :=
  { basePaper with id := .vstr "pBadVenue", venue := .vother }

theorem includesChars_nil_needle (l : List Char) : includesChars [] l = true := by
  cases l <;> simp [includesChars, startsWithChars]

theorem strIncludes_empty_needle (h : String) : strIncludes h "" = true := by
  show includesChars "".data h.data = true
  exact includesChars_nil_needle h.data

theorem searchMemoryGo_fst (words : List String) (fav : Bool) (l : List Paper) :
    (searchMemoryGo words fav l).1 =
      l.filter (fun p => textMatch words p && (!fav || p.favorite)) := by
  induction l with
  | nil => rfl
  | cons p rest ih =>
    simp only [searchMemoryGo, List.filter_cons, ih]

theorem searchMemoryGo_append (words : List String) (fav : Bool)
    (l1 l2 : List Paper) :
    searchMemoryGo words fav (l1 ++ l2) =
      ((searchMemoryGo words fav l1).1 ++ (searchMemoryGo words fav l2).1,
       (searchMemoryGo words fav l1).2 ++ (searchMemoryGo words fav l2).2) := by
  induction l1 with
  | nil => simp [searchMemoryGo]
  | cons p rest ih =>
    simp only [List.cons_append, searchMemoryGo, ih]
    cases hb : textMatch words p && (!fav || p.favorite) <;>
      simp [ih, hb, List.append_assoc]

theorem searchMemoryGo_log_mem (words : List String) (fav : Bool)
    (l : List Paper) (p : Paper) (k : String) (hp : p ∈ l)
    (hk : k ∈ contentKeys) (hbad : getField p k = .vother) :
    searchMemoryErrMsg k ∈ (searchMemoryGo words fav l).2 := by
  induction l with
  | nil => cases hp
  | cons q rest ih =>
    simp only [searchMemoryGo]
    rcases List.mem_cons.mp hp with h | h
    · subst h
      refine List.mem_append.mpr (Or.inl ?_)
      refine List.mem_map.mpr ⟨k, List.mem_filter.mpr ⟨hk, ?_⟩, rfl⟩
      rw [hbad]
      rfl
    · exact List.mem_append.mpr (Or.inr (ih h))

theorem searchMemoryByTagsGo_eq_some (tokens : List String) (fav : Bool)
    (l : List Paper) (res : List Paper)
    (h : searchMemoryByTagsGo tokens fav l = some res) :
    res = l.filter (tagsKeep tokens fav) := by
  induction l generalizing res with
  | nil =>
    simp only [searchMemoryByTagsGo, Option.some.injEq] at h
    rw [← h]
    rfl
  | cons p rest ih =>
    cases htags : p.tags with
    | varr tl =>
      simp only [searchMemoryByTagsGo, htags] at h
      cases hrest : searchMemoryByTagsGo tokens fav rest with
      | none => rw [hrest] at h; cases h
      | some tl2 =>
        rw [hrest] at h
        simp only [Option.map_some', Option.some.injEq] at h
        rw [← h, List.filter_cons, ih tl2 hrest]
        simp only [tagsKeep, htags]
    | vstr s => simp [searchMemoryByTagsGo, htags] at h
    | vother => simp [searchMemoryByTagsGo, htags] at h

theorem searchMemoryByTagsGo_abort (tokens : List String) (fav : Bool)
    (l : List Paper) (p : Paper) (hp : p ∈ l) (hbad : jsTagsArr p = none) :
    searchMemoryByTagsGo tokens fav l = none := by
  induction l with
  | nil => cases hp
  | cons q rest ih =>
    rcases List.mem_cons.mp hp with h | h
    · subst h
      cases htags : p.tags with
      | varr tl => rw [jsTagsArr, htags] at hbad; cases hbad
      | vstr s => simp [searchMemoryByTagsGo, htags]
      | vother => simp [searchMemoryByTagsGo, htags]
    · cases htags : q.tags with
      | varr tl => simp [searchMemoryByTagsGo, htags, ih h]
      | vstr s => simp [searchMemoryByTagsGo, htags]
      | vother => simp [searchMemoryByTagsGo, htags]

theorem searchMemoryByTagsGo_wf (tokens : List String) (fav : Bool)
    (l : List Paper) (hwf : ∀ p ∈ l, (jsTagsArr p).isSome = true) :
    searchMemoryByTagsGo tokens fav l =
      some (l.filter (tagsKeep tokens fav)) := by
  induction l with
  | nil => rfl
  | cons p rest ih =>
    have hp := hwf p (List.mem_cons_self p rest)
    cases htags : p.tags with
    | varr tl =>
      have hr := ih (fun q hq => hwf q (List.mem_cons_of_mem _ hq))
      simp only [searchMemoryByTagsGo, htags, hr, Option.map_some',
        Option.some.injEq, List.filter_cons]
      simp only [tagsKeep, htags]
    | vstr s => rw [jsTagsArr, htags] at hp; cases hp
    | vother => rw [jsTagsArr, htags] at hp; cases hp

theorem take_append_take_drop {α : Type} (l : List α) (a b : Nat) (hab : a ≤ b) :
    l.take a ++ (l.take b).drop a = l.take b := by
  have h1 : (l.take b).take a = l.take a := by
    rw [List.take_take, min_eq_left hab]
  rw [← h1, List.take_append_drop]

theorem yearCompare_smaller_iff (y py : Option Int) :
    yearCompare .smaller y py = true ↔
      ∃ t pv, y = some t ∧ py = some pv ∧ pv < t := by
  cases y <;> cases py <;> simp [yearCompare]

theorem yearCompare_greater_iff (y py : Option Int) :
    yearCompare .greater y py = true ↔
      ∃ t pv, y = some t ∧ py = some pv ∧ t < pv := by
  cases y <;> cases py <;> simp [yearCompare]

theorem textMatch_empty_token (p : Paper) : textMatch [""] p = true := by
  simp [textMatch, contentKeys, strIncludes_empty_needle]

theorem tagsMatch_empty_token (l : List String) :
    tagsMatch [""] l = !l.isEmpty := by
  cases l with
  | nil => rfl
  | cons a as => simp [tagsMatch, strIncludes_empty_needle]

/-- C1: the claim's polarity is inverted relative to the code.  In
`searchMemoryByYear`, `"smaller"` mode evaluates `compare(y, py) = y > py`
with `y` the *query* token and `py` the *paper* year, so a paper is kept
exactly when its year is LESS than some target token (and dually for
`"greater"`); for the input `"y:<22"` the 2021 paper is kept and the 2023
paper is dropped. -/
theorem C1_theorem :
    (∀ (letters : String) (sorted : List Paper) (p : Paper),
      yearCondition letters = .smaller →
      (p ∈ searchMemoryByYear letters sorted ↔
        p ∈ sorted ∧ ∃ t pv, (some t) ∈ searchYears letters ∧
          parseIntJS p.year = some pv ∧ pv < t)) ∧
    (∀ (letters : String) (sorted : List Paper) (p : Paper),
      yearCondition letters = .greater →
      (p ∈ searchMemoryByYear letters sorted ↔
        p ∈ sorted ∧ ∃ t pv, (some t) ∈ searchYears letters ∧
          parseIntJS p.year = some pv ∧ t < pv)) ∧
    searchMemoryByYear "y:<22" [p2023, p2021] = [p2021] := by
  refine ⟨?_, ?_, by decide⟩
  · intro letters sorted p hc
    simp only [searchMemoryByYear, List.mem_filter, hc, List.any_eq_true,
      yearCompare_smaller_iff]
    constructor
    · rintro ⟨hm, y, hy, t, pv, rfl, hpv, hlt⟩
      exact ⟨hm, t, pv, hy, hpv, hlt⟩
    · rintro ⟨hm, t, pv, hy, hpv, hlt⟩
      exact ⟨hm, some t, hy, t, pv, rfl, hpv, hlt⟩
  · intro letters sorted p hc
    simp only [searchMemoryByYear, List.mem_filter, hc, List.any_eq_true,
      yearCompare_greater_iff]
    constructor
    · rintro ⟨hm, y, hy, t, pv, rfl, hpv, hlt⟩
      exact ⟨hm, t, pv, hy, hpv, hlt⟩
    · rintro ⟨hm, t, pv, hy, hpv, hlt⟩
      exact ⟨hm, some t, hy, t, pv, rfl, hpv, hlt⟩

/-- C1 counterexample: for the input `"y:<22"` (mode `"smaller"`, target
token 2022) the claim asserts that the 2023 paper is kept and the 2021
paper is not; the code does exactly the opposite. -/
theorem C1_counterexample :
    p2023 ∉ searchMemoryByYear "y:<22" [p2023, p2021] ∧
    p2021 ∈ searchMemoryByYear "y:<22" [p2023, p2021] := by decide

/-- C1 witness: the smaller-mode characterization applied at the concrete
query `"y:<22"` and the 2021 paper. -/
theorem C1_witness : p2021 ∈ searchMemoryByYear "y:<22" [p2021] :=
  (C1_theorem.1 "y:<22" [p2021] p2021 (by decide)).mpr
    ⟨by decide, 2022, 2021, by decide, by decide, by decide⟩

/-- C4: amended.  A text query with empty operand and a code query with
empty operand pass every paper (subject only to the favorites toggle); a
tag query with empty operand passes exactly the papers having at least one
tag (the empty token is substring-matched against the existing tags, so a
paper with an empty tag array fails `some`); a year query with no year
tokens produces the EMPTY list, not the full collection, because
`[].some(...)` is false for every paper. -/
theorem C4_theorem :
    (∀ (sorted : List Paper) (fav : Bool),
      (searchMemory "" sorted fav).1 =
        sorted.filter (fun p => !fav || p.favorite)) ∧
    (∀ (sorted : List Paper) (fav : Bool),
      searchMemoryByCode "c:" sorted fav =
        sorted.filter (fun p => !fav || p.favorite)) ∧
    (∀ (sorted : List Paper) (fav : Bool),
      (∀ p ∈ sorted, (jsTagsArr p).isSome = true) →
      searchMemoryByTags "t:" sorted fav = some (sorted.filter (fun p =>
        !((jsTagsArr p).getD []).isEmpty && (!fav || p.favorite)))) ∧
    (∀ (letters : String) (sorted : List Paper), searchYears letters = [] →
      searchMemoryByYear letters sorted = []) ∧
    searchYears "y:" = [] := by
  refine ⟨?_, ?_, ?_, ?_, by decide⟩
  · intro sorted fav
    show (searchMemoryGo (jsSplit (jsToLower "") ' ') fav sorted).1 = _
    have hw : jsSplit (jsToLower "") ' ' = [""] := rfl
    rw [hw, searchMemoryGo_fst]
    apply List.filter_congr
    intro p _
    rw [textMatch_empty_token, Bool.true_and]
  · intro sorted fav
    simp only [searchMemoryByCode]
    apply List.filter_congr
    intro p _
    have hw : jsSplit (jsToLower (replaceFirst "c:" "c:" "")) ' ' = [""] := rfl
    rw [hw]
    simp [strIncludes_empty_needle]
  · intro sorted fav hwf
    have ht : tagTokens "t:" = [""] := rfl
    rw [searchMemoryByTags, ht, searchMemoryByTagsGo_wf _ _ _ hwf]
    congr 1
    apply List.filter_congr
    intro p hp
    have hs := hwf p hp
    cases htags : p.tags with
    | varr l => simp [tagsKeep, htags, jsTagsArr, tagsMatch_empty_token]
    | vstr s => rw [jsTagsArr, htags] at hs; cases hs
    | vother => rw [jsTagsArr, htags] at hs; cases hs
  · intro letters sorted hy
    simp [searchMemoryByYear, hy]

/-- C4 counterexample: a year query with no year tokens (`"y:"`) yields the
empty list, not the full sorted collection, even with the favorites toggle
off. -/
theorem C4_counterexample :
    searchMemoryByYear "y:" [basePaper] = [] ∧
    ([] : List Paper) ≠ [basePaper] := by decide

/-- C4 witness: the no-token year conjunct applied at the concrete query
`"y:"`. -/
theorem C4_witness : searchMemoryByYear "y:" [p2021] = [] :=
  C4_theorem.2.2.2.1 "y:" [p2021] (by decide)

/-- C6: amended.  `saveFavoriteItem` sets `favorite` to the given flag and
sets `favoriteDate` to the current timestamp UNCONDITIONALLY — also when
un-favoriting; the favorite date is never unset. -/
theorem C6_theorem : ∀ (p : Paper) (fav : Bool) (now : String),
    (saveFavoriteItem p fav now).favorite = fav ∧
    (saveFavoriteItem p fav now).favoriteDate = some now :=
  fun _ _ _ => ⟨rfl, rfl⟩

/-- C6 counterexample: after toggling favorite back to false the paper
still carries a favorite date (the claim says it carries none). -/
theorem C6_counterexample :
    (saveFavoriteItem basePaper false "2026-10-11T00:00:00.000Z").favoriteDate
      ≠ none := by decide

/-- C7: every filter pass returns an order-preserving subsequence
(`List.Sublist`) of the input sorted collection — no reordering, no
re-sort, for every query kind and favorites setting. -/
theorem C7_theorem :
    (∀ (letters : String) (sorted : List Paper) (fav : Bool),
      ((searchMemory letters sorted fav).1).Sublist sorted) ∧
    (∀ (letters : String) (sorted : List Paper) (fav : Bool)
      (res : List Paper),
      searchMemoryByTags letters sorted fav = some res → res.Sublist sorted) ∧
    (∀ (letters : String) (sorted : List Paper) (fav : Bool),
      (searchMemoryByCode letters sorted fav).Sublist sorted) ∧
    (∀ (letters : String) (sorted : List Paper),
      (searchMemoryByYear letters sorted).Sublist sorted) := by
  refine ⟨?_, ?_, ?_, ?_⟩
  · intro letters sorted fav
    rw [searchMemory, searchMemoryGo_fst]
    exact List.filter_sublist sorted
  · intro letters sorted fav res h
    rw [searchMemoryByTags] at h
    rw [searchMemoryByTagsGo_eq_some _ _ _ _ h]
    exact List.filter_sublist sorted
  · intro letters sorted fav
    simp only [searchMemoryByCode]
    exact List.filter_sublist sorted
  · intro letters sorted
    simp only [searchMemoryByYear]
    exact List.filter_sublist sorted

/-- C7 witness: the tag-pass sublist property applied at the concrete query
`"t:ga"` on the singleton collection. -/
theorem C7_witness : List.Sublist [pGan] [pGan] :=
  C7_theorem.2.1 "t:ga" [pGan] false [pGan] (by decide)

/-- C10: both `addAnkiCard` variants submit a note built with
`modelName: "Basic"` and options `allowDuplicate: true`,
`duplicateScope: "deck"` — so AnkiConnect's duplicate check is disabled
within the deck and note creation is never rejected as a same-deck
duplicate. -/
theorem C10_theorem :
    (∀ (deckName front back : String) (tags : List String)
      (paper : Option AnkiPaperMeta),
      (addAnkiCard deckName front back tags paper).modelName = "Basic" ∧
      (addAnkiCard deckName front back tags paper).allowDuplicate = true ∧
      (addAnkiCard deckName front back tags paper).duplicateScope = "deck") ∧
    (∀ (deckName front back : String) (tags : List String),
      (addAnkiCardBasic deckName front back tags).modelName = "Basic" ∧
      (addAnkiCardBasic deckName front back tags).allowDuplicate = true ∧
      (addAnkiCardBasic deckName front back tags).duplicateScope = "deck") :=
  ⟨fun _ _ _ _ _ => ⟨rfl, rfl, rfl⟩, fun _ _ _ _ => ⟨rfl, rfl, rfl⟩⟩

/-- C2: amended.  The favorites toggle is an extra conjunct for text, tag
and code queries, but `searchMemoryByYear` contains no favorites check at
all: a year query returns the same list whichever way the toggle is set. -/
theorem C2_theorem :
    (∀ (letters : String) (sorted : List Paper) (p : Paper),
      p ∈ (searchMemory letters sorted true).1 → p.favorite = true) ∧
    (∀ (letters : String) (sorted : List Paper) (res : List Paper) (p : Paper),
      searchMemoryByTags letters sorted true = some res → p ∈ res →
      p.favorite = true) ∧
    (∀ (letters : String) (sorted : List Paper) (p : Paper),
      p ∈ searchMemoryByCode letters sorted true → p.favorite = true) ∧
    (∀ (query : String) (sorted : List Paper),
      jsStartsWith (jsToLower (jsTrim query)) "y:" = true →
      filterMemory query sorted true = filterMemory query sorted false) := by
  refine ⟨?_, ?_, ?_, ?_⟩
  · intro letters sorted p h
    rw [searchMemory, searchMemoryGo_fst] at h
    have hk := (List.mem_filter.mp h).2
    rw [Bool.and_eq_true] at hk
    simpa using hk.2
  · intro letters sorted res p h hp
    rw [searchMemoryByTags] at h
    rw [searchMemoryByTagsGo_eq_some _ _ _ _ h] at hp
    have hk := (List.mem_filter.mp hp).2
    cases htags : p.tags with
    | varr l =>
      simp only [tagsKeep, htags, Bool.and_eq_true] at hk
      simpa using hk.2
    | vstr s => simp [tagsKeep, htags] at hk
    | vother => simp [tagsKeep, htags] at hk
  · intro letters sorted p h
    simp only [searchMemoryByCode] at h
    have hk := (List.mem_filter.mp h).2
    rw [Bool.and_eq_true] at hk
    simpa using hk.2
  · intro query sorted hy
    have ht : jsStartsWith (jsToLower (jsTrim query)) "t:" = false := by
      have hy2 : startsWithChars ['y', ':'] (jsToLower (jsTrim query)).data
          = true := hy
      show startsWithChars ['t', ':'] (jsToLower (jsTrim query)).data = false
      cases hcs : (jsToLower (jsTrim query)).data with
      | nil => rw [hcs] at hy2; cases hy2
      | cons c cs =>
        rw [hcs] at hy2
        simp only [startsWithChars, Bool.and_eq_true, decide_eq_true_eq] at hy2
        rw [← hy2.1]
        rfl
    simp [filterMemory, ht, hy]

/-- C2 counterexample: with the favorites toggle active, a year query still
returns a non-favorite paper. -/
theorem C2_counterexample :
    filterMemory "y:2021" [p2021] true = some [p2021] ∧
    p2021.favorite = false := by decide

/-- C2 witness: the text-pass favorites conjunct applied at the empty query
on a favorite paper. -/
theorem C2_witness : pFav.favorite = true :=
  C2_theorem.1 "" [pFav] pFav (by decide)

/-- C9: amended.  The text pass (`searchMemory`) guards every content
field: the pass is position-local (it distributes over list append, so one
paper never affects another), a malformed field is logged with the
`searchMemory` error line, and the `vother` case is matched as the empty
string — the pass never aborts.  The tag pass however calls `.map` on
`paper.tags` unguarded: one paper with a non-array `tags` field throws and
aborts the entire pass, which then produces no list at all. -/
theorem C9_theorem :
    (∀ (words : List String) (fav : Bool) (l1 l2 : List Paper),
      searchMemoryGo words fav (l1 ++ l2) =
        ((searchMemoryGo words fav l1).1 ++ (searchMemoryGo words fav l2).1,
         (searchMemoryGo words fav l1).2 ++ (searchMemoryGo words fav l2).2)) ∧
    (∀ (letters : String) (sorted : List Paper) (fav : Bool) (p : Paper)
      (k : String), p ∈ sorted → k ∈ contentKeys → getField p k = .vother →
      searchMemoryErrMsg k ∈ (searchMemory letters sorted fav).2) ∧
    jsContent .vother = ("", true) ∧
    (∀ (letters : String) (sorted : List Paper) (fav : Bool) (p : Paper),
      p ∈ sorted → jsTagsArr p = none →
      searchMemoryByTags letters sorted fav = none) := by
  refine ⟨searchMemoryGo_append, ?_, rfl, ?_⟩
  · intro letters sorted fav p k hp hk hbad
    exact searchMemoryGo_log_mem _ _ _ _ _ hp hk hbad
  · intro letters sorted fav p hp hbad
    exact searchMemoryByTagsGo_abort _ _ _ _ hp hbad

/-- C9 counterexample: one malformed `tags` field aborts the whole tag
pass — the matching paper `pGan` is filtered fine alone, but together with
`pBadTags` the pass yields no result at all instead of leaving the other
papers unaffected. -/
theorem C9_counterexample :
    searchMemoryByTags "t:a" [pGan, pBadTags] false = none ∧
    searchMemoryByTags "t:a" [pGan] false = some [pGan] := by decide

/-- C9 witness: the logging conjunct applied to a paper with a malformed
`venue` field. -/
theorem C9_witness :
    searchMemoryErrMsg "venue" ∈ (searchMemory "x" [pBadVenue] false).2 :=
  C9_theorem.2.1 "x" [pBadVenue] false pBadVenue "venue" (by decide)
    (by decide) (by decide)

/-- C3: a paper passes a text query exactly when every token of the
lowercased space-split operand occurs as a substring of at least one of the
six content fields (title, author, note, tags joined, id, venue); a tag
query exactly when every token occurs as a substring of at least one of the
paper's lowercased tags (so the token `"ga"` matches the tag `"gan"`); a
code query exactly when every token occurs in the lowercased
`codeLink` — AND across tokens, OR across fields/tags. -/
theorem C3_theorem :
    (∀ (letters : String) (sorted : List Paper) (p : Paper),
      p ∈ (searchMemory letters sorted false).1 ↔
        p ∈ sorted ∧ ∀ w ∈ jsSplit (jsToLower letters) ' ',
          ∃ k ∈ contentKeys, strIncludes (jsContent (getField p k)).1 w = true) ∧
    (∀ (letters : String) (sorted : List Paper) (res : List Paper) (p : Paper),
      searchMemoryByTags letters sorted false = some res →
      (p ∈ res ↔ p ∈ sorted ∧ ∃ l, p.tags = .varr l ∧
        ∀ t ∈ tagTokens letters, ∃ pt ∈ l,
          strIncludes (jsToLower pt) t = true)) ∧
    (∀ (letters : String) (sorted : List Paper) (p : Paper),
      p ∈ searchMemoryByCode letters sorted false ↔
        p ∈ sorted ∧
          ∀ w ∈ jsSplit (jsToLower (replaceFirst letters "c:" "")) ' ',
            strIncludes (jsToLower (p.codeLink.getD "")) w = true) ∧
    searchMemoryByTags "t:ga" [pGan] false = some [pGan] := by
  refine ⟨?_, ?_, ?_, by decide⟩
  · intro letters sorted p
    rw [searchMemory, searchMemoryGo_fst, List.mem_filter]
    simp [textMatch, List.all_eq_true, List.any_eq_true, List.mem_map]
  · intro letters sorted res p h
    rw [searchMemoryByTags] at h
    rw [searchMemoryByTagsGo_eq_some _ _ _ _ h, List.mem_filter]
    cases htags : p.tags with
    | varr l =>
      simp [tagsKeep, htags, tagsMatch, List.all_eq_true, List.any_eq_true,
        List.mem_map]
    | vstr s => simp [tagsKeep, htags]
    | vother => simp [tagsKeep, htags]
  · intro letters sorted p
    simp only [searchMemoryByCode, List.mem_filter]
    simp [List.all_eq_true]

/-- C3 witness: the text-pass characterization applied at the concrete
query `"ga"` on the collection containing only `pGan`. -/
theorem C3_witness : pGan ∈ (searchMemory "ga" [pGan] false).1 :=
  (C3_theorem.1 "ga" [pGan] pGan).mpr ⟨by decide, by decide⟩

theorem keyLE_trans (k : SortKey) (a b c : Paper) (hab : keyLE k a b = true)
    (hbc : keyLE k b c = true) : keyLE k a c = true := by
  cases k <;> simp only [keyLE, decide_eq_true_eq] at hab hbc ⊢ <;>
    exact le_trans hab hbc

theorem keyLE_total (k : SortKey) (a b : Paper) :
    (keyLE k a b || keyLE k b a) = true := by
  cases k <;> simp only [keyLE, Bool.or_eq_true, decide_eq_true_eq] <;>
    exact le_total _ _

/-- C5: amended.  With page size 100 over a 250-row filtered list: the
initial display renders the prefix of length 100; the first trigger appends
rows [100,200), the second appends [200,250) reaching the full list; the
guard of a trigger is `cursor*pageSize < papersList.length` (NOT
`(cursor+1)*pageSize` as claimed), so a THIRD trigger still fires — it
increments the cursor to 3 while appending an empty slice — and only the
fourth trigger is a complete no-op.  The rendered rows are always a prefix
of the filtered list, hence never duplicated and never truncated. -/
theorem C5_theorem : ∀ (l : List Paper), l.length = 250 →
    (displayMemoryTable l 100 0 ⟨0, []⟩ = ⟨0, l.take 100⟩) ∧
    (l.take 100).length = 100 ∧
    (displayOnScrollTrigger l 100 ⟨0, l.take 100⟩ = ⟨1, l.take 200⟩) ∧
    (l.take 200).length = 200 ∧
    (displayOnScrollTrigger l 100 ⟨1, l.take 200⟩ = ⟨2, l⟩) ∧
    (displayOnScrollTrigger l 100 ⟨2, l⟩ = ⟨3, l⟩) ∧
    (displayOnScrollTrigger l 100 ⟨3, l⟩ = ⟨3, l⟩) ∧
    (∀ v : MemoryView, l.length ≤ v.currentMemoryPagination * 100 →
      displayOnScrollTrigger l 100 v = v) ∧
    (∀ v : MemoryView, v.currentMemoryPagination * 100 < l.length →
      (displayOnScrollTrigger l 100 v).currentMemoryPagination =
        v.currentMemoryPagination + 1 ∧
      (displayOnScrollTrigger l 100 v).renderedRows =
        v.renderedRows ++ pageSlice l 100 (v.currentMemoryPagination + 1)) := by
  intro l hl
  have ht100 : l.take 100 ++ (l.take 200).drop 100 = l.take 200 :=
    take_append_take_drop l 100 200 (by omega)
  have ht200 : l.take 200 ++ (l.take 300).drop 200 = l.take 300 :=
    take_append_take_drop l 200 300 (by omega)
  have h300 : l.take 300 = l := List.take_of_length_le (by omega)
  have h400 : l.take 400 = l := List.take_of_length_le (by omega)
  have hd300 : l.drop 300 = [] := List.drop_eq_nil_of_le (by omega)
  refine ⟨?_, ?_, ?_, ?_, ?_, ?_, ?_, ?_, ?_⟩
  · simp [displayMemoryTable, pageSlice]
  · simp [hl]
  · simp only [displayOnScrollTrigger, displayMemoryTable, pageSlice, hl]
    norm_num
    rw [ht100]
  · simp [hl]
  · simp only [displayOnScrollTrigger, displayMemoryTable, pageSlice, hl]
    norm_num
    rw [ht200, h300]
  · simp only [displayOnScrollTrigger, displayMemoryTable, pageSlice, hl]
    norm_num
    omega
  · simp [displayOnScrollTrigger, hl]
  · intro v hv
    rw [displayOnScrollTrigger]
    simp [Nat.not_lt.mpr hv]
  · intro v hv
    rw [displayOnScrollTrigger]
    simp only [hv, if_pos]
    constructor
    · rfl
    · rw [displayMemoryTable]
      simp

/-- C5 counterexample: with page size 1 over a single-row list, after the
initial display the cursor is 0 and no rows remain beyond
`(cursor+1)*pageSize = 1`, so by the claim a trigger must be a no-op — but
the code's trigger still fires (its guard is `cursor*pageSize < length`)
and changes the state by incrementing the cursor. -/
theorem C5_counterexample :
    (displayMemoryTable [basePaper] 1 0 ⟨0, []⟩).currentMemoryPagination = 0 ∧
    [basePaper].length ≤
      ((displayMemoryTable [basePaper] 1 0 ⟨0, []⟩).currentMemoryPagination + 1)
        * 1 ∧
    displayOnScrollTrigger [basePaper] 1 (displayMemoryTable [basePaper] 1 0 ⟨0, []⟩)
      ≠ displayMemoryTable [basePaper] 1 0 ⟨0, []⟩ := by decide

/-- C5 witness: the amended pagination run applied to a concrete 250-row
list. -/
theorem C5_witness :
    displayMemoryTable (List.replicate 250 basePaper) 100 0 ⟨0, []⟩ =
      ⟨0, (List.replicate 250 basePaper).take 100⟩ :=
  (C5_theorem (List.replicate 250 basePaper) (by rw [List.length_replicate])).1

/-- C8: for every collection and sort key, sorting descending is exactly
the reverse of sorting ascending, and a direction change is realized by
`reverseMemory` (an O(n) list reversal of the sorted and filtered lists),
not by a re-sort; the ascending order really is sorted by the key's
comparator. -/
theorem C8_theorem :
    (∀ (c : List Paper) (k : SortKey),
      sortMemory c k .desc = (sortMemory c k .asc).reverse) ∧
    (∀ (c : List Paper) (k : SortKey) (papersList : List Paper),
      reverseMemory (sortMemory c k .asc) papersList =
        (sortMemory c k .desc, papersList.reverse)) ∧
    (∀ (c : List Paper) (k : SortKey),
      List.Pairwise (fun a b => keyLE k a b = true) (sortMemory c k .asc)) := by
  refine ⟨fun _ _ => rfl, fun _ _ _ => rfl, ?_⟩
  intro c k
  exact List.sorted_mergeSort (fun a b d hab hbd => keyLE_trans k a b d hab hbd)
    (fun a b => keyLE_total k a b) c
